import Mathlib

set_option autoImplicit false
set_option linter.unusedVariables false

namespace SfMiddleware

/-!
Shallow embedding of the sf-middleware webhook relay.

Sources embedded here:
  * src/utils/security.js      — signature verifiers
  * src/integrations/base.js   — BaseIntegration (shared transform, sendToSalesforce)
  * integrations github/stripe/sendgrid (unnamed parts 000-002)
  * src/connectors/salesforce.js — SalesforceConnector (lazy init, operations)
  * src/config/index.js + routes — config flags and the three webhook routes

JavaScript values parsed from a request body are arbitrary JSON, modelled by
the inductive `Json` below.  Library functions that the repository merely
calls (node crypto HMAC, JSON.stringify, Date#toISOString, the Heroku
Salesforce SDK data-api) are abstracted as parameters or oracles; everything
else follows the JavaScript line by line.  JavaScript numbers are modelled as
rationals; the payload fields the claims touch are integers and exact decimal
divisions, where the rational and double semantics agree.
-/

/-- A JSON value, as produced by the Express JSON body parser. -/
inductive Json where
  | null
  | bool (b : Bool)
  | num (q : ℚ)
  | str (s : String)
  | arr (elems : List Json)
  | obj (fields : List (String × Json))

/-- Property access `j.key` / optional chain `j?.key`: yields the field when
`j` is an object carrying it, otherwise `none` (JavaScript `undefined`:
optional chaining short-circuits on null/undefined, and property access on
primitives or on objects lacking the key yields undefined). -/
def Json.getField (j : Json) (key : String) : Option Json :=
  match j with
  | .obj fields => (fields.find? (fun p => p.1 == key)).map (fun p => p.2)
  | _ => none

/-- JavaScript truthiness of a JSON value (`undefined` is handled by the
`Option` layer at use sites). -/
def Json.truthy : Json → Bool
  | .null => false
  | .bool b => b
  | .num q => q != 0
  | .str s => s != ""
  | .arr _ => true
  | .obj _ => true

/-- The fields of an object, for object-spread; spreading a non-object
contributes no enumerable string-keyed fields relevant here. -/
def Json.objFields : Json → List (String × Json)
  | .obj fields => fields
  | _ => []

/-- Object-literal merge `\x7b ...xs, ...ys \x7d` where later fields (`ys`)
override earlier ones (`xs`); lookup via `Json.getField` (first match) then
agrees with JavaScript last-write-wins semantics. -/
def mergeFields (xs ys : List (String × Json)) : List (String × Json) :=
  ys ++ xs.filter (fun p => !(ys.any (fun q => q.1 == p.1)))

/-! ## src/utils/security.js -/

/-- Exceptions the embedded JavaScript can raise. -/
inductive JsError where
  /-- `crypto.timingSafeEqual` raises when the two buffers differ in byte length. -/
  | rangeError
deriving DecidableEq, Repr

/-- `verifyGithubSignature(payload, signature, secret)` from
src/utils/security.js lines 10-18.  The HMAC-SHA256 hex digest computed by
node's crypto is abstracted as `hmacHex secret payload`.  Empty strings are
the falsy string inputs (`!payload` etc.); an unset secret behaves
identically to the empty string.  `crypto.timingSafeEqual(Buffer.from d,
Buffer.from s)` compares byte-for-byte when the UTF-8 byte lengths agree and
raises a RangeError otherwise. -/
def verifyGithubSignature (hmacHex : String → String → String)
    (payload signature secret : String) : Except JsError Bool :=
  if payload = "" ∨ signature = "" ∨ secret = "" then
    .ok false
  else
    let digest := "sha256=" ++ hmacHex secret payload
    if digest.utf8ByteSize = signature.utf8ByteSize then
      .ok (digest == signature)
    else
      .error .rangeError

/-- `verifyStripeSignature` from src/utils/security.js lines 27-32: a
placeholder that ignores its arguments and returns true. -/
def verifyStripeSignature (payload signature secret : String) : Bool :=
  true

/-- `verifySendGridSignature` from src/utils/security.js lines 41-46: a
placeholder that ignores its arguments and returns true. -/
def verifySendGridSignature (payload signature secret : String) : Bool :=
  true

/-! ## src/config/index.js -/

/-- The configuration values the embedded code reads.  `testing` is
`process.env.TESTING === 'true'`; the per-source webhook secrets may be unset
in the environment, which every use site treats exactly like the empty
string (both are falsy), so they are modelled as strings. -/
structure Config where
  testing : Bool
  githubSecret : String
  stripeSecret : String
  sendgridSecret : String
deriving DecidableEq, Repr

/-! ## Requests -/

/-- An inbound Express request: lower-cased header name/value pairs and the
parsed JSON body. -/
structure Req where
  headers : List (String × String)
  body : Json

/-- `req.headers[name]`: `none` models JavaScript `undefined`. -/
def Req.header (req : Req) (name : String) : Option String :=
  (req.headers.find? (fun p => p.1 == name)).map (fun p => p.2)

/-- `req.headers` as a JSON object (for the `headers` field the routes attach
to the processed data). -/
def Req.headersJson (req : Req) : Json :=
  .obj (req.headers.map (fun p => (p.1, .str p.2)))

/-! ## Integrations (github/stripe/sendgrid, unnamed parts 000-002) -/

/-- `GitHubIntegration.verifyRequest(req)`: returns true unconditionally when
`config.testing` is set; otherwise reads the `x-hub-signature-256` header
(falsy header value → false) and delegates to `verifyGithubSignature` on
`JSON.stringify(req.body)` with the configured GitHub secret.
`stringify` abstracts `JSON.stringify`. -/
def githubVerifyRequest (cfg : Config) (hmacHex : String → String → String)
    (stringify : Json → String) (req : Req) : Except JsError Bool :=
  if cfg.testing then
    .ok true
  else
    match req.header "x-hub-signature-256" with
    | none => .ok false
    | some s =>
      if s = "" then .ok false
      else verifyGithubSignature hmacHex (stringify req.body) s cfg.githubSecret

/-- `StripeIntegration.verifyRequest(req)`: reads the `stripe-signature`
header (falsy → false) and delegates to the placeholder
`verifyStripeSignature`. -/
def stripeVerifyRequest (cfg : Config) (stringify : Json → String)
    (req : Req) : Bool :=
  match req.header "stripe-signature" with
  | none => false
  | some s =>
    if s = "" then false
    else verifyStripeSignature (stringify req.body) s cfg.stripeSecret

/-- `SendGridIntegration.verifyRequest(req)`: reads the
`x-sendgrid-signature` header (falsy → false) and delegates to the
placeholder `verifySendGridSignature`. -/
def sendgridVerifyRequest (cfg : Config) (stringify : Json → String)
    (req : Req) : Bool :=
  match req.header "x-sendgrid-signature" with
  | none => false
  | some s =>
    if s = "" then false
    else verifySendGridSignature (stringify req.body) s cfg.sendgridSecret

/-- The base record fields produced by
`BaseIntegration.transformForSalesforce` (src/integrations/base.js lines
47-54). -/
structure BaseFields where
  Name : String
  Source__c : String
  Raw_Data__c : String
  Status__c : String
deriving DecidableEq, Repr

/-- `BaseIntegration.transformForSalesforce(data)`: `stringify` abstracts
`JSON.stringify` and `nowIso` is `new Date().toISOString()` at the moment of
the call. -/
def baseTransformForSalesforce (name : String) (stringify : Json → String)
    (nowIso : String) (data : Json) : BaseFields :=
  { Name := name ++ " Integration " ++ nowIso
    Source__c := name
    Raw_Data__c := stringify data
    Status__c := "Received" }

/-- The record produced by `GitHubIntegration.transformForSalesforce`.
Pass-through fields keep the JSON value found in the payload; `none` models
an absent/undefined source field. -/
structure GithubRecord extends BaseFields where
  Event_Type__c : Option Json
  Repository__c : Option Json
  Sender__c : Option Json

/-- `GitHubIntegration.transformForSalesforce(data)` (unnamed part 000 lines
44-54): base fields for source "GitHub" plus `data.event`,
`data.repository?.full_name`, `data.sender?.login`. -/
def githubTransformForSalesforce (stringify : Json → String) (nowIso : String)
    (data : Json) : GithubRecord :=
  { toBaseFields := baseTransformForSalesforce "GitHub" stringify nowIso data
    Event_Type__c := data.getField "event"
    Repository__c := (data.getField "repository").bind (fun r => r.getField "full_name")
    Sender__c := (data.getField "sender").bind (fun s => s.getField "login") }

/-- The record produced by `StripeIntegration.transformForSalesforce`. -/
structure StripeRecord extends BaseFields where
  Event_Type__c : Option Json
  Customer_Id__c : Option Json
  Amount__c : Option ℚ
  Created__c : Option String

/-- `StripeIntegration.transformForSalesforce(data)` (unnamed part 001 lines
41-52): base fields for source "Stripe" plus `data.type`,
`data.data?.object?.customer`,
`Amount__c = data.data?.object?.amount ? amount / 100 : null` and
`Created__c = data.created ? new Date(created * 1000).toISOString() : null`.
`toIso` abstracts `ms => new Date(ms).toISOString()`.  The amount and
created fields carried by Stripe events are JSON numbers; a numeric value of
0 is falsy, so the conditional maps it to null exactly like a missing
field. -/
def stripeTransformForSalesforce (stringify : Json → String)
    (toIso : ℚ → String) (nowIso : String) (data : Json) : StripeRecord :=
  { toBaseFields := baseTransformForSalesforce "Stripe" stringify nowIso data
    Event_Type__c := data.getField "type"
    Customer_Id__c :=
      ((data.getField "data").bind (fun d => d.getField "object")).bind
        (fun o => o.getField "customer")
    Amount__c :=
      match ((data.getField "data").bind (fun d => d.getField "object")).bind
          (fun o => o.getField "amount") with
      | some (.num q) => if q = 0 then none else some (q / 100)
      | _ => none
    Created__c :=
      match data.getField "created" with
      | some (.num q) => if q = 0 then none else some (toIso (q * 1000))
      | _ => none }

/-- The record produced by `SendGridIntegration.transformForSalesforce`. -/
structure SendGridRecord extends BaseFields where
  Event_Type__c : Option Json
  Email__c : Option Json
  Timestamp__c : Option String

/-- `SendGridIntegration.transformForSalesforce(data)` (unnamed part 002
lines 41-51): base fields for source "SendGrid" plus `data.event`,
`data.email`, and
`Timestamp__c = data.timestamp ? new Date(timestamp * 1000).toISOString() : null`. -/
def sendgridTransformForSalesforce (stringify : Json → String)
    (toIso : ℚ → String) (nowIso : String) (data : Json) : SendGridRecord :=
  { toBaseFields := baseTransformForSalesforce "SendGrid" stringify nowIso data
    Event_Type__c := data.getField "event"
    Email__c := data.getField "email"
    Timestamp__c :=
      match data.getField "timestamp" with
      | some (.num q) => if q = 0 then none else some (toIso (q * 1000))
      | _ => none }

/-! ## src/connectors/salesforce.js -/

/-- Errors surfaced by the Heroku Salesforce SDK data-api. -/
inductive SdkError where
  /-- An expired or invalid session on an operation. -/
  | expiredSession
  /-- Sink-side validation rejection carrying field-level messages. -/
  | remoteRejected (messages : List String)
  /-- Connection establishment failed. -/
  | connectFailed
deriving DecidableEq, Repr

/-- Result of a successful data-api create/update/delete. -/
structure SdkResult where
  id : String
deriving DecidableEq, Repr

/-- Result of a successful data-api query: one page of records, the
done flag, and the total size. -/
structure QueryResult where
  records : List Json
  done : Bool
  totalSize : Nat

/-- The SDK environment the connector talks to: the outcome of
`getConnection` and, per kind, the outcome that the data-api hands back to
the n-th operation submitted in this process (oracles indexed by call
count, so a scenario such as "expired on the first use, success on the
second" is a concrete environment).  `commitResult` maps each reference id
of the committed unit to its record result. -/
structure SinkEnv where
  connect : Except SdkError Unit
  opResult : Nat → Except SdkError SdkResult
  queryResult : Nat → Except SdkError QueryResult
  commitResult : Nat → Except SdkError (List (String × SdkResult))

/-- The connector's mutable state: whether `this.dataApi` is set (non-null),
and how many operations have been submitted to the sink so far (the oracle
index). -/
structure ConnectorState where
  dataApi : Bool
  calls : Nat
deriving DecidableEq, Repr

/-- `SalesforceConnector.initialize()` (src/connectors/salesforce.js lines
12-25): a no-op when `this.dataApi` is already set; otherwise obtains the
connection via `getConnection`, storing the org/data-api handles on success
and rethrowing the error (after logging) on failure. -/
def SalesforceConnector.initialize (env : SinkEnv) (st : ConnectorState) :
    Except SdkError ConnectorState :=
  if st.dataApi then .ok st
  else
    match env.connect with
    | .ok _ => .ok { st with dataApi := true }
    | .error e => .error e

/-- `SalesforceConnector.createIntegrationRecord(data)` (lines 27-45):
initializes when `this.dataApi` is null, then submits the record once via
`this.dataApi.create`; the surrounding try/catch logs and rethrows any error
unchanged, so the outcome is exactly the sink's response to this single
submission — there is no retry. -/
def SalesforceConnector.createIntegrationRecord (env : SinkEnv)
    (st : ConnectorState) : Except SdkError SdkResult × ConnectorState :=
  match SalesforceConnector.initialize env st with
  | .error e => (.error e, st)
  | .ok st1 => (env.opResult st1.calls, { st1 with calls := st1.calls + 1 })

/-- `SalesforceConnector.query(soql)` (lines 47-59): initializes when
`this.dataApi` is null, then submits the query once via
`this.dataApi.query(soql)` and returns its results; the try/catch logs and
rethrows any error unchanged — no retry. -/
def SalesforceConnector.query (env : SinkEnv) (st : ConnectorState)
    (soql : String) : Except SdkError QueryResult × ConnectorState :=
  match SalesforceConnector.initialize env st with
  | .error e => (.error e, st)
  | .ok st1 => (env.queryResult st1.calls, { st1 with calls := st1.calls + 1 })

/-- `SalesforceConnector.updateRecord(type, id, fields)` (lines 61-82):
initializes when `this.dataApi` is null, builds the record with the Id
merged into the fields, submits it once via `this.dataApi.update`; the
try/catch logs and rethrows any error unchanged — no retry. -/
def SalesforceConnector.updateRecord (env : SinkEnv) (st : ConnectorState)
    (ty rid : String) (fields : List (String × Json)) :
    Except SdkError SdkResult × ConnectorState :=
  match SalesforceConnector.initialize env st with
  | .error e => (.error e, st)
  | .ok st1 => (env.opResult st1.calls, { st1 with calls := st1.calls + 1 })

/-- `SalesforceConnector.deleteRecord(type, id)` (lines 84-97): initializes
when `this.dataApi` is null, submits the deletion once via
`this.dataApi.delete(type, id)`; the try/catch logs and rethrows any error
unchanged — no retry. -/
def SalesforceConnector.deleteRecord (env : SinkEnv) (st : ConnectorState)
    (ty rid : String) : Except SdkError SdkResult × ConnectorState :=
  match SalesforceConnector.initialize env st with
  | .error e => (.error e, st)
  | .ok st1 => (env.opResult st1.calls, { st1 with calls := st1.calls + 1 })

/-- A unit of work: the ordered pending operations registered so far, each
under a caller-assigned reference id. -/
structure UnitOfWork where
  ops : List (String × Json)

/-- `dataApi.newUnitOfWork()`: per the SDK usage documented in the repo, a
fresh unit of work has no registered operations. -/
def newUnitOfWork : UnitOfWork :=
  { ops := [] }

/-- `SalesforceConnector.createUnitOfWork()` (lines 99-110): initializes when
`this.dataApi` is null — establishing the connection as a side effect — then
returns `this.dataApi.newUnitOfWork()`; errors from initialization are
rethrown unchanged. -/
def SalesforceConnector.createUnitOfWork (env : SinkEnv)
    (st : ConnectorState) : Except SdkError UnitOfWork × ConnectorState :=
  match SalesforceConnector.initialize env st with
  | .error e => (.error e, st)
  | .ok st1 => (.ok newUnitOfWork, st1)

/-- `SalesforceConnector.commitUnitOfWork(uow)` (lines 112-125): initializes
when `this.dataApi` is null, submits the unit once via
`this.dataApi.commitUnitOfWork(uow)` and returns the per-reference-id
results; the try/catch logs and rethrows any error unchanged — no retry. -/
def SalesforceConnector.commitUnitOfWork (env : SinkEnv)
    (st : ConnectorState) (uow : UnitOfWork) :
    Except SdkError (List (String × SdkResult)) × ConnectorState :=
  match SalesforceConnector.initialize env st with
  | .error e => (.error e, st)
  | .ok st1 => (env.commitResult st1.calls, { st1 with calls := st1.calls + 1 })

/-! ## Webhook routes (src/config routes file) -/

/-- The externally visible calls a route handler makes, in program order:
an HTTP response with a status code and a JSON body, the invocation of the
integration's `process` on the assembled data, or only an error log (when an
exception is caught before any response was sent). -/
inductive Action where
  | respond (status : Nat) (body : Json)
  | processEvent (source : String) (data : Json)
  | logError

/-- The `\x7b status: 'processing' \x7d` body sent with the 202
acknowledgment. -/
def processingBody : Json :=
  .obj [("status", .str "processing")]

/-- The `\x7b error: 'Invalid signature' \x7d` body sent with the 401
rejection. -/
def invalidSignatureBody : Json :=
  .obj [("error", .str "Invalid signature")]

/-- The data object the GitHub route assembles:
`\x7b event, ...req.body, headers: req.headers \x7d`, where `event` is the
`x-github-event` header (omitted when the header is absent, matching an
undefined property). -/
def mkGithubData (req : Req) : Json :=
  let eventFields :=
    match req.header "x-github-event" with
    | some e => [("event", Json.str e)]
    | none => []
  .obj (mergeFields (mergeFields eventFields req.body.objFields)
    [("headers", req.headersJson)])

/-- The data object the Stripe and SendGrid routes assemble:
`\x7b ...req.body, headers: req.headers \x7d`. -/
def mkBodyHeadersData (req : Req) : Json :=
  .obj (mergeFields req.body.objFields [("headers", req.headersJson)])

/-- The GitHub route handler (`router.post('/github')`): verify, on false
respond 401 and stop; otherwise respond 202 `\x7b status:'processing' \x7d`
and only then invoke the integration's processing on the assembled data.  An
exception thrown by verification is caught by the handler's try/catch, which
only logs (no response was sent yet). -/
def githubRoute (cfg : Config) (hmacHex : String → String → String)
    (stringify : Json → String) (req : Req) : List Action :=
  match githubVerifyRequest cfg hmacHex stringify req with
  | .ok false => [.respond 401 invalidSignatureBody]
  | .ok true =>
      [.respond 202 processingBody, .processEvent "GitHub" (mkGithubData req)]
  | .error _ => [.logError]

/-- The Stripe route handler (`router.post('/stripe')`): verify, on false
respond 401 and stop; otherwise respond 202 and then process. -/
def stripeRoute (cfg : Config) (stringify : Json → String) (req : Req) :
    List Action :=
  if stripeVerifyRequest cfg stringify req then
    [.respond 202 processingBody,
     .processEvent "Stripe" (mkBodyHeadersData req)]
  else
    [.respond 401 invalidSignatureBody]

/-- The SendGrid route handler (`router.post('/sendgrid')`): verify, on
false respond 401 and stop; otherwise respond 202 and then process. -/
def sendgridRoute (cfg : Config) (stringify : Json → String) (req : Req) :
    List Action :=
  if sendgridVerifyRequest cfg stringify req then
    [.respond 202 processingBody,
     .processEvent "SendGrid" (mkBodyHeadersData req)]
  else
    [.respond 401 invalidSignatureBody]

/-! ## Claims -/

/-- Claim C1, counterexample: the claim demands that every source's verify
return false when the secret is empty, but `verifyStripeSignature` returns
true on payload "p", signature "sig" and the empty secret (it is a
placeholder returning true unconditionally). -/
theorem c1_stripe_placeholder_counterexample :
    verifyStripeSignature "p" "sig" "" = true := rfl

/-- Claim C1, amended: `verifyGithubSignature` returns false whenever the
payload, the signature header, or the secret is empty; with all three
nonempty it compares the computed `sha256=<hex>` digest against the header —
equal byte lengths yield exactly byte-for-byte equality, while differing
byte lengths raise a RangeError rather than returning false.  The Stripe and
SendGrid verifiers are unverified placeholders returning true for every
payload, signature value, and secret. -/
theorem c1_verify_amended (hmacHex : String → String → String)
    (payload signature secret : String) :
    verifyStripeSignature payload signature secret = true ∧
    verifySendGridSignature payload signature secret = true ∧
    (payload = "" ∨ signature = "" ∨ secret = "" →
      verifyGithubSignature hmacHex payload signature secret = .ok false) ∧
    (payload ≠ "" → signature ≠ "" → secret ≠ "" →
      ("sha256=" ++ hmacHex secret payload).utf8ByteSize = signature.utf8ByteSize →
      verifyGithubSignature hmacHex payload signature secret =
        .ok (("sha256=" ++ hmacHex secret payload) == signature)) ∧
    (payload ≠ "" → signature ≠ "" → secret ≠ "" →
      ("sha256=" ++ hmacHex secret payload).utf8ByteSize ≠ signature.utf8ByteSize →
      verifyGithubSignature hmacHex payload signature secret = .error .rangeError) := by
  refine ⟨rfl, rfl, ?_, ?_, ?_⟩ <;> intros <;>
    simp_all [verifyGithubSignature]

/-- Claim C1, witness for the amended statement: the empty payload is
rejected, a matching digest of equal length is accepted, and the placeholder
accepts an empty secret. -/
theorem c1_verify_amended_witness :
    verifyGithubSignature (fun k p => "d") "" "x" "k" = .ok false ∧
    verifyGithubSignature (fun k p => "d") "p" "sha256=d" "k" =
      .ok (("sha256=" ++ "d") == "sha256=d") ∧
    verifyStripeSignature "p" "x" "" = true := by
  refine ⟨(c1_verify_amended (fun k p => "d") "" "x" "k").2.2.1 (Or.inl rfl),
    (c1_verify_amended (fun k p => "d") "p" "sha256=d" "k").2.2.2.1
      (by decide) (by decide) (by decide) rfl,
    (c1_verify_amended (fun k p => "d") "p" "x" "").1⟩

/-- Claim C2: the claim (and the function's own JSDoc, which promises a
boolean validity result) says `verifyGithubSignature` never throws, for any
combination of inputs including a signature whose length differs from the
computed digest.  The code instead raises: with nonempty payload, signature
and secret, `crypto.timingSafeEqual(Buffer.from(digest),
Buffer.from(signature))` throws a RangeError whenever the digest's byte
length (71 for the real `sha256=<64 hex>` digest) differs from the header
value's byte length. -/
theorem c2_throws_on_length_mismatch (hmacHex : String → String → String)
    (payload signature secret : String)
    (hp : payload ≠ "") (hs : signature ≠ "") (hk : secret ≠ "")
    (hlen : ("sha256=" ++ hmacHex secret payload).utf8ByteSize ≠
      signature.utf8ByteSize) :
    verifyGithubSignature hmacHex payload signature secret =
      .error .rangeError := by
  simp_all [verifyGithubSignature]

/-- Claim C2, witness: with a one-letter digest oracle, payload "p",
signature "x", secret "k", the lengths 8 and 1 differ and the call raises. -/
theorem c2_throws_on_length_mismatch_witness :
    ("p" : String) ≠ "" ∧ ("x" : String) ≠ "" ∧ ("k" : String) ≠ "" ∧
    ("sha256=" ++ (fun (k p : String) => "d") "k" "p").utf8ByteSize ≠
      ("x" : String).utf8ByteSize ∧
    verifyGithubSignature (fun k p => "d") "p" "x" "k" = .error .rangeError :=
  ⟨by decide, by decide, by decide, by decide,
    c2_throws_on_length_mismatch (fun k p => "d") "p" "x" "k"
      (by decide) (by decide) (by decide) (by decide)⟩

/-- Claim C3: with the testing flag set, `GitHubIntegration.verifyRequest`
returns true for every request, every configured secret, every HMAC oracle
and every serialization — it neither reads the signature header nor computes
a digest (the result is independent of all of them). -/
theorem c3_testing_bypasses_verification (gs ss sg : String)
    (hmacHex : String → String → String) (stringify : Json → String)
    (req : Req) :
    githubVerifyRequest { testing := true, githubSecret := gs,
                          stripeSecret := ss, sendgridSecret := sg }
        hmacHex stringify req = .ok true := rfl

/-- Claim C5: whenever verification passes, each route responds 202 with
body `\x7b status:'processing' \x7d` strictly before invoking the
integration's processing: the handler's action sequence is exactly the
acknowledgment followed by the process invocation. -/
theorem c5_ack_precedes_processing (cfg : Config)
    (hmacHex : String → String → String) (stringify : Json → String)
    (req : Req) :
    (githubVerifyRequest cfg hmacHex stringify req = .ok true →
      githubRoute cfg hmacHex stringify req =
        [.respond 202 processingBody,
         .processEvent "GitHub" (mkGithubData req)]) ∧
    (stripeVerifyRequest cfg stringify req = true →
      stripeRoute cfg stringify req =
        [.respond 202 processingBody,
         .processEvent "Stripe" (mkBodyHeadersData req)]) ∧
    (sendgridVerifyRequest cfg stringify req = true →
      sendgridRoute cfg stringify req =
        [.respond 202 processingBody,
         .processEvent "SendGrid" (mkBodyHeadersData req)]) := by
  refine ⟨?_, ?_, ?_⟩ <;> intro h <;>
    simp [githubRoute, stripeRoute, sendgridRoute, h]

/-- Claim C5, witness: a GitHub request under the testing flag and a Stripe
request carrying a `stripe-signature` header are acknowledged with 202 and
then processed. -/
theorem c5_ack_precedes_processing_witness :
    githubRoute ⟨true, "", "", ""⟩ (fun k p => "d") (fun j => "")
        ⟨[], .obj []⟩ =
      [.respond 202 processingBody,
       .processEvent "GitHub" (mkGithubData ⟨[], .obj []⟩)] ∧
    stripeRoute ⟨false, "", "", ""⟩ (fun j => "")
        ⟨[("stripe-signature", "t")], .obj []⟩ =
      [.respond 202 processingBody,
       .processEvent "Stripe"
         (mkBodyHeadersData ⟨[("stripe-signature", "t")], .obj []⟩)] :=
  ⟨(c5_ack_precedes_processing ⟨true, "", "", ""⟩ (fun k p => "d")
      (fun j => "") ⟨[], .obj []⟩).1 rfl,
   (c5_ack_precedes_processing ⟨false, "", "", ""⟩ (fun k p => "d")
      (fun j => "") ⟨[("stripe-signature", "t")], .obj []⟩).2.1 rfl⟩

/-- Claim C6: whenever verification returns false, each route responds 401
with body `\x7b error:'Invalid signature' \x7d` and performs nothing else —
in particular no process invocation (hence no transform and no sink
operation) and no 202 acknowledgment appear in the handler's action
sequence. -/
theorem c6_reject_responds_401_and_stops (cfg : Config)
    (hmacHex : String → String → String) (stringify : Json → String)
    (req : Req) :
    (githubVerifyRequest cfg hmacHex stringify req = .ok false →
      githubRoute cfg hmacHex stringify req =
        [.respond 401 invalidSignatureBody]) ∧
    (stripeVerifyRequest cfg stringify req = false →
      stripeRoute cfg stringify req = [.respond 401 invalidSignatureBody]) ∧
    (sendgridVerifyRequest cfg stringify req = false →
      sendgridRoute cfg stringify req = [.respond 401 invalidSignatureBody]) := by
  refine ⟨?_, ?_, ?_⟩ <;> intro h <;>
    simp [githubRoute, stripeRoute, sendgridRoute, h]

/-- Claim C6, witness: requests without signature headers (testing flag
clear) are rejected with 401 on all three routes. -/
theorem c6_reject_responds_401_and_stops_witness :
    githubRoute ⟨false, "", "", ""⟩ (fun k p => "d") (fun j => "")
        ⟨[], .obj []⟩ = [.respond 401 invalidSignatureBody] ∧
    stripeRoute ⟨false, "", "", ""⟩ (fun j => "") ⟨[], .obj []⟩ =
      [.respond 401 invalidSignatureBody] ∧
    sendgridRoute ⟨false, "", "", ""⟩ (fun j => "") ⟨[], .obj []⟩ =
      [.respond 401 invalidSignatureBody] :=
  ⟨(c6_reject_responds_401_and_stops ⟨false, "", "", ""⟩ (fun k p => "d")
      (fun j => "") ⟨[], .obj []⟩).1 rfl,
   (c6_reject_responds_401_and_stops ⟨false, "", "", ""⟩ (fun k p => "d")
      (fun j => "") ⟨[], .obj []⟩).2.1 rfl,
   (c6_reject_responds_401_and_stops ⟨false, "", "", ""⟩ (fun k p => "d")
      (fun j => "") ⟨[], .obj []⟩).2.2 rfl⟩

/-- A sink environment whose connection establishes fine, whose first
operation fails with an expired session, and whose every later operation
succeeds. -/
def expiredThenOkEnv : SinkEnv where
  connect := .ok ()
  opResult := fun n => if n = 0 then .error .expiredSession else .ok ⟨"rec1"⟩
  queryResult := fun n =>
    if n = 0 then .error .expiredSession else .ok ⟨[], true, 0⟩
  commitResult := fun n =>
    if n = 0 then .error .expiredSession else .ok [("ref1", ⟨"rec1"⟩)]

/-- A sink environment whose connection establishment fails. -/
def badConnectEnv : SinkEnv where
  connect := .error .connectFailed
  opResult := fun n => .ok ⟨"rec1"⟩
  queryResult := fun n => .ok ⟨[], true, 0⟩
  commitResult := fun n => .ok [("ref1", ⟨"rec1"⟩)]

/-- Claim C4, counterexample: against a connection that reports an expired
session on first use and would succeed on the second, a create call starting
from the uninitialized state surfaces the transient error to the caller —
the claim demands it transparently reconnect, retry once and succeed. -/
theorem c4_no_retry_counterexample :
    SalesforceConnector.createIntegrationRecord expiredThenOkEnv ⟨false, 0⟩ =
      (.error .expiredSession, ⟨true, 1⟩) := rfl

/-- Claim C4, amended: each sink operation — create, query, update, delete
and unit-of-work commit — lazily initializes the connection when no data-api
handle exists (surfacing the initialization error unchanged when that
fails), then submits the single operation exactly once and returns the
sink's response for it unmodified — any failure, an expired session
included, is surfaced to the caller with no reconnect and no retry. -/
theorem c4_single_attempt_amended (env : SinkEnv) (st : ConnectorState)
    (soql ty rid : String) (fields : List (String × Json))
    (uow : UnitOfWork) :
    (∀ e, SalesforceConnector.initialize env st = .error e →
      SalesforceConnector.createIntegrationRecord env st = (.error e, st) ∧
      SalesforceConnector.query env st soql = (.error e, st) ∧
      SalesforceConnector.updateRecord env st ty rid fields = (.error e, st) ∧
      SalesforceConnector.deleteRecord env st ty rid = (.error e, st) ∧
      SalesforceConnector.commitUnitOfWork env st uow = (.error e, st)) ∧
    (∀ st1, SalesforceConnector.initialize env st = .ok st1 →
      SalesforceConnector.createIntegrationRecord env st =
        (env.opResult st1.calls, { st1 with calls := st1.calls + 1 }) ∧
      SalesforceConnector.query env st soql =
        (env.queryResult st1.calls, { st1 with calls := st1.calls + 1 }) ∧
      SalesforceConnector.updateRecord env st ty rid fields =
        (env.opResult st1.calls, { st1 with calls := st1.calls + 1 }) ∧
      SalesforceConnector.deleteRecord env st ty rid =
        (env.opResult st1.calls, { st1 with calls := st1.calls + 1 }) ∧
      SalesforceConnector.commitUnitOfWork env st uow =
        (env.commitResult st1.calls, { st1 with calls := st1.calls + 1 })) := by
  constructor <;> intro x h <;>
    simp [SalesforceConnector.createIntegrationRecord,
      SalesforceConnector.query, SalesforceConnector.updateRecord,
      SalesforceConnector.deleteRecord, SalesforceConnector.commitUnitOfWork,
      h]

/-- Claim C4, witness for the amended statement: on an already-initialized
connector the sixth call of each operation is submitted as the oracle's
call number five and its successful result is returned unchanged; when
connection establishment fails, every operation surfaces that error with
the state untouched. -/
theorem c4_single_attempt_amended_witness :
    (SalesforceConnector.createIntegrationRecord expiredThenOkEnv ⟨true, 5⟩ =
        (.ok ⟨"rec1"⟩, ⟨true, 6⟩) ∧
      SalesforceConnector.query expiredThenOkEnv ⟨true, 5⟩ "SELECT" =
        (.ok ⟨[], true, 0⟩, ⟨true, 6⟩) ∧
      SalesforceConnector.updateRecord expiredThenOkEnv ⟨true, 5⟩
          "Integration__c" "id1" [] = (.ok ⟨"rec1"⟩, ⟨true, 6⟩) ∧
      SalesforceConnector.deleteRecord expiredThenOkEnv ⟨true, 5⟩
          "Integration__c" "id1" = (.ok ⟨"rec1"⟩, ⟨true, 6⟩) ∧
      SalesforceConnector.commitUnitOfWork expiredThenOkEnv ⟨true, 5⟩
          newUnitOfWork = (.ok [("ref1", ⟨"rec1"⟩)], ⟨true, 6⟩)) ∧
    (SalesforceConnector.createIntegrationRecord badConnectEnv ⟨false, 0⟩ =
        (.error .connectFailed, ⟨false, 0⟩) ∧
      SalesforceConnector.query badConnectEnv ⟨false, 0⟩ "SELECT" =
        (.error .connectFailed, ⟨false, 0⟩) ∧
      SalesforceConnector.updateRecord badConnectEnv ⟨false, 0⟩
          "Integration__c" "id1" [] = (.error .connectFailed, ⟨false, 0⟩) ∧
      SalesforceConnector.deleteRecord badConnectEnv ⟨false, 0⟩
          "Integration__c" "id1" = (.error .connectFailed, ⟨false, 0⟩) ∧
      SalesforceConnector.commitUnitOfWork badConnectEnv ⟨false, 0⟩
          newUnitOfWork = (.error .connectFailed, ⟨false, 0⟩)) := by
  have hok := (c4_single_attempt_amended expiredThenOkEnv ⟨true, 5⟩
    "SELECT" "Integration__c" "id1" [] newUnitOfWork).2 ⟨true, 5⟩ rfl
  have hbad := (c4_single_attempt_amended badConnectEnv ⟨false, 0⟩
    "SELECT" "Integration__c" "id1" [] newUnitOfWork).1 .connectFailed rfl
  constructor
  · simpa [expiredThenOkEnv] using hok
  · simpa using hbad

/-- A sink environment whose connection establishes fine and whose
operations all succeed. -/
def okConnectEnv : SinkEnv where
  connect := .ok ()
  opResult := fun n => .ok ⟨"rec1"⟩
  queryResult := fun n => .ok ⟨[], true, 0⟩
  commitResult := fun n => .ok [("ref1", ⟨"rec1"⟩)]

/-- Claim C7, counterexample: called with no live connection,
`createUnitOfWork` establishes one — the connector's state after the call
differs from the state before it, while the claim demands the connection
state be left unchanged regardless of whether a live connection exists. -/
theorem c7_touches_connection_counterexample :
    (SalesforceConnector.createUnitOfWork okConnectEnv ⟨false, 0⟩).2 ≠
      (⟨false, 0⟩ : ConnectorState) := by decide

/-- Claim C7, amended: `createUnitOfWork` returns an empty unit of work;
when a live connection exists it leaves the connector's state unchanged, but
when none exists it first establishes the connection (setting the data-api
handle) as a side effect. -/
theorem c7_newUnitOfWork_amended (env : SinkEnv) (st : ConnectorState) :
    (st.dataApi = true →
      SalesforceConnector.createUnitOfWork env st = (.ok newUnitOfWork, st)) ∧
    (st.dataApi = false → env.connect = .ok () →
      SalesforceConnector.createUnitOfWork env st =
        (.ok newUnitOfWork, { st with dataApi := true })) := by
  constructor
  · intro h
    simp [SalesforceConnector.createUnitOfWork,
      SalesforceConnector.initialize, h]
  · intro h hc
    simp [SalesforceConnector.createUnitOfWork,
      SalesforceConnector.initialize, h, hc]

/-- Claim C7, witness for the amended statement: with a live connection the
state is untouched and the unit is empty; without one the data-api handle
gets set. -/
theorem c7_newUnitOfWork_amended_witness :
    SalesforceConnector.createUnitOfWork okConnectEnv ⟨true, 3⟩ =
      (.ok newUnitOfWork, ⟨true, 3⟩) ∧
    SalesforceConnector.createUnitOfWork okConnectEnv ⟨false, 3⟩ =
      (.ok newUnitOfWork, ⟨true, 3⟩) :=
  ⟨(c7_newUnitOfWork_amended okConnectEnv ⟨true, 3⟩).1 rfl,
   (c7_newUnitOfWork_amended okConnectEnv ⟨false, 3⟩).2 rfl rfl⟩

/-- A Stripe event carrying a zero amount in minor units. -/
def zeroAmountEvent : Json :=
  .obj [("data", .obj [("object", .obj [("amount", .num 0)])])]

/-- Claim C8, counterexample: an event whose payload carries the monetary
amount 0 at data.data.object.amount is transformed to a null `Amount__c`,
not to 0/100 = 0 as the claim demands — the JavaScript conditional
`amount ? amount / 100 : null` treats the number 0 as falsy. -/
theorem c8_zero_amount_counterexample :
    (stripeTransformForSalesforce (fun j => "") (fun q => "") ""
      zeroAmountEvent).Amount__c = none := rfl

/-- Claim C8, amended: for every Stripe event whose payload carries a
nonzero monetary amount in minor units at data.data.object.amount, the
transform produces `Amount__c` equal to that amount divided by 100 exactly
(2550 yields 25.50); an amount of 0, like a missing amount, yields a null
`Amount__c`. -/
theorem c8_amount_minor_units_amended (stringify : Json → String)
    (toIso : ℚ → String) (nowIso : String) (data : Json) (q : ℚ)
    (hq : q ≠ 0)
    (hchain : ((data.getField "data").bind (fun d => d.getField "object")).bind
        (fun o => o.getField "amount") = some (.num q)) :
    (stripeTransformForSalesforce stringify toIso nowIso data).Amount__c =
      some (q / 100) := by
  simp [stripeTransformForSalesforce, hchain, hq]

/-- Claim C8, witness for the amended statement: the event with amount 2550
yields exactly 25.50. -/
theorem c8_amount_minor_units_amended_witness :
    (2550 : ℚ) ≠ 0 ∧
    (stripeTransformForSalesforce (fun j => "") (fun q => "") ""
      (.obj [("data", .obj [("object", .obj [("amount", .num 2550)])])])).Amount__c =
      some (25.5 : ℚ) := by
  constructor
  · norm_num
  · have h := c8_amount_minor_units_amended (fun j => "") (fun q => "") ""
      (.obj [("data", .obj [("object", .obj [("amount", .num 2550)])])])
      2550 (by norm_num) rfl
    rw [h]
    norm_num

/-- Claim C9, counterexample: the base transform sets the status field to
the capitalized literal "Received", so the record's status is not the
claim's "received". -/
theorem c9_status_literal_counterexample :
    (githubTransformForSalesforce (fun j => "") "" (.obj [])).Status__c ≠
      "received" := by decide

/-- Claim C9, amended: every integration's transform always includes the
base field set — a name of the form `<source> Integration <timestamp>`, the
source tag equal to the integration's name, the raw payload serialized
verbatim, and status "Received" (capitalized) — and for a GitHub push event
the record additionally carries event type "push", the payload's
repository.full_name and the payload's sender.login. -/
theorem c9_transform_fields_amended (stringify : Json → String)
    (toIso : ℚ → String) (nowIso : String) (data : Json) :
    ((githubTransformForSalesforce stringify nowIso data).Name =
        "GitHub Integration " ++ nowIso ∧
      (githubTransformForSalesforce stringify nowIso data).Source__c = "GitHub" ∧
      (githubTransformForSalesforce stringify nowIso data).Raw_Data__c =
        stringify data ∧
      (githubTransformForSalesforce stringify nowIso data).Status__c =
        "Received") ∧
    ((stripeTransformForSalesforce stringify toIso nowIso data).Name =
        "Stripe Integration " ++ nowIso ∧
      (stripeTransformForSalesforce stringify toIso nowIso data).Source__c =
        "Stripe" ∧
      (stripeTransformForSalesforce stringify toIso nowIso data).Raw_Data__c =
        stringify data ∧
      (stripeTransformForSalesforce stringify toIso nowIso data).Status__c =
        "Received") ∧
    ((sendgridTransformForSalesforce stringify toIso nowIso data).Name =
        "SendGrid Integration " ++ nowIso ∧
      (sendgridTransformForSalesforce stringify toIso nowIso data).Source__c =
        "SendGrid" ∧
      (sendgridTransformForSalesforce stringify toIso nowIso data).Raw_Data__c =
        stringify data ∧
      (sendgridTransformForSalesforce stringify toIso nowIso data).Status__c =
        "Received") ∧
    (∀ fullName login : String,
      data.getField "event" = some (.str "push") →
      (data.getField "repository").bind (fun r => r.getField "full_name") =
        some (.str fullName) →
      (data.getField "sender").bind (fun s => s.getField "login") =
        some (.str login) →
      (githubTransformForSalesforce stringify nowIso data).Event_Type__c =
        some (.str "push") ∧
      (githubTransformForSalesforce stringify nowIso data).Repository__c =
        some (.str fullName) ∧
      (githubTransformForSalesforce stringify nowIso data).Sender__c =
        some (.str login)) := by
  refine ⟨⟨rfl, rfl, rfl, rfl⟩, ⟨rfl, rfl, rfl, rfl⟩, ⟨rfl, rfl, rfl, rfl⟩,
    ?_⟩
  intro fullName login he hr hs
  exact ⟨by simp [githubTransformForSalesforce, he],
    by simp [githubTransformForSalesforce, hr],
    by simp [githubTransformForSalesforce, hs]⟩

/-- A GitHub push event payload. -/
def pushEvent : Json :=
  .obj [("event", .str "push"),
        ("repository", .obj [("full_name", .str "walters954/sf-middleware")]),
        ("sender", .obj [("login", .str "walters954")])]

/-- Claim C9, witness for the amended statement: a concrete push event
yields the base fields with status "Received" plus the push-specific
fields. -/
theorem c9_transform_fields_amended_witness :
    (githubTransformForSalesforce (fun j => "raw") "T0" pushEvent).Name =
      "GitHub Integration " ++ "T0" ∧
    (githubTransformForSalesforce (fun j => "raw") "T0" pushEvent).Source__c =
      "GitHub" ∧
    (githubTransformForSalesforce (fun j => "raw") "T0" pushEvent).Status__c =
      "Received" ∧
    (githubTransformForSalesforce (fun j => "raw") "T0" pushEvent).Event_Type__c =
      some (.str "push") ∧
    (githubTransformForSalesforce (fun j => "raw") "T0" pushEvent).Repository__c =
      some (.str "walters954/sf-middleware") ∧
    (githubTransformForSalesforce (fun j => "raw") "T0" pushEvent).Sender__c =
      some (.str "walters954") := by
  have h := c9_transform_fields_amended (fun j => "raw") (fun q => "") "T0"
    pushEvent
  have hp := h.2.2.2 "walters954/sf-middleware" "walters954" rfl rfl rfl
  exact ⟨h.1.1, h.1.2.1, h.1.2.2.2, hp.1, hp.2.1, hp.2.2⟩

end SfMiddleware
